import Mathlib

/-!
Verification development for the TonnExamples repository: a shallow embedding
of the HTTP task-submission / polling / download client code found in
batch_album_mastering.py, roex_mix_enhance_tutorial.py, roex_mix_settings.py,
roex_mix_comparison.py and roex_audio_clean_up.py, together with theorems
settling the frozen claims about that code.

Conventions of the embedding:
- JSON values are modelled by the inductive type JVal; a Python value
  returned by dict.get is a JVal, with Python None identified with JSON null.
- An HTTP response is a status code together with either a parsed JSON
  object body (some fields) or a parse failure (none), matching the fact
  that every script only ever calls response.json() and dict.get on the
  result.  Top-level non-object JSON bodies are outside the model.
- The network is an oracle: each outbound request is answered by a
  ReqOutcome, either a raised transport exception (exn) or a response.
  A polling loop consumes a stream of outcomes, one per attempt.
- Each polling function returns a PollTrace recording the Python return
  value (ret), which branch terminated the call (its observable log
  behaviour, field named exit), how many requests were issued, and the
  list of sleep durations performed, in order.
-/

namespace Roex

/-- JSON values as manipulated by the Python scripts.  Python None and JSON
null are identified. -/
inductive JVal where
  | null
  | bool (b : Bool)
  | num (n : Int)
  | str (s : String)
  | arr (elems : List JVal)
  | obj (fields : List (String × JVal))

/-- Python truthiness of a JSON value: None, False, 0, empty string, empty
list and empty dict are falsy, everything else is truthy. -/
def truthy : JVal → Bool
  | JVal.null => false
  | JVal.bool b => b
  | JVal.num n => decide (n ≠ 0)
  | JVal.str s => decide (s ≠ "")
  | JVal.arr elems => !elems.isEmpty
  | JVal.obj fields => !fields.isEmpty

/-- Lookup of a key in a JSON object body, first match. -/
def jget : List (String × JVal) → String → Option JVal
  | [], _ => none
  | (k, v) :: rest, key => if k = key then some v else jget rest key

/-- Python dict.get with one argument: a missing key yields None, and a key
bound to JSON null also yields Python None; both map to JVal.null. -/
def pyGet (b : List (String × JVal)) (k : String) : JVal :=
  (jget b k).getD JVal.null

/-- Python dict.get with an explicit default value. -/
def pyGetD (b : List (String × JVal)) (k : String) (d : JVal) : JVal :=
  (jget b k).getD d

/-- Python equality test between an arbitrary value and a string literal. -/
def isStrEq : JVal → String → Bool
  | JVal.str s, t => decide (s = t)
  | _, _ => false

/-- One HTTP response: status code, parsed JSON object body (none meaning
that response.json() raises), and raw text. -/
structure HttpResponse where
  status_code : Nat
  body : Option (List (String × JVal))
  text : String

/-- Result of issuing one request: either the library raised (network
failure) or a response arrived. -/
inductive ReqOutcome where
  | exn
  | ok (r : HttpResponse)

/-- Drop the first answer of a network oracle: the stream seen by the next
polling attempt. -/
def shift (net : Nat → ReqOutcome) : Nat → ReqOutcome :=
  fun i => net (i + 1)

/-- Which branch of a polling function terminated the call.  The branches
are observable in the source through their distinct print statements. -/
inductive PollExit where
  | completed
  | transportError
  | jsonError
  | missingResult
  | taskFailed
  | unexpectedStatus
  | timeout
  | crashed
deriving DecidableEq, Repr

/-- Observable behaviour of one polling call: Python return value, the
branch that terminated the loop, number of requests issued, and the ordered
list of sleep durations performed. -/
structure PollTrace where
  ret : JVal
  exit : PollExit
  requests : Nat
  sleeps : List Nat

/-- Account for one still-processing attempt: the attempt issued one
request and slept once for the polling interval before the remaining
attempts ran. -/
def stepTrace (interval : Nat) (tr : PollTrace) : PollTrace :=
  ⟨tr.ret, tr.exit, tr.requests + 1, interval :: tr.sleeps⟩

/-- Embedding of poll_preview_master from batch_album_mastering.py.  The
loop runs for at most the given number of attempts; a 202 means still
processing (any body, a parse failure there is swallowed); a 200 returns
the previewMasterTaskResults value when it is truthy and otherwise returns
None at once; a JSON parse failure on a 200, any other status code, or a
raised request all return None at once; exhausting the budget returns None
with the not-ready message. -/
def poll_preview_master (net : Nat → ReqOutcome) (poll_interval : Nat) :
    Nat → PollTrace
  | 0 => ⟨JVal.null, PollExit.timeout, 0, []⟩
  | n + 1 =>
    match net 0 with
    | ReqOutcome.exn => ⟨JVal.null, PollExit.transportError, 1, []⟩
    | ReqOutcome.ok r =>
      if r.status_code = 202 then
        stepTrace poll_interval (poll_preview_master (shift net) poll_interval n)
      else if r.status_code = 200 then
        match r.body with
        | none => ⟨JVal.null, PollExit.jsonError, 1, []⟩
        | some b =>
          if truthy (pyGet b ("previewMasterTaskResults")) then
            ⟨pyGet b ("previewMasterTaskResults"), PollExit.completed, 1, []⟩
          else
            ⟨JVal.null, PollExit.missingResult, 1, []⟩
      else
        ⟨JVal.null, PollExit.unexpectedStatus, 1, []⟩

/-- Embedding of poll_enhanced_track from roex_mix_enhance_tutorial.py.
A 200 with the error flag falsy and truthy revivedTrackTaskResults returns
the results; with empty results it keeps polling; with the error flag
truthy it breaks out and returns None; a parse failure on a 200 breaks out
and returns None; 404, 503 and 202 are still processing; any other status
breaks out and returns None; a raised request returns None at once. -/
def poll_enhanced_track (net : Nat → ReqOutcome) (poll_interval : Nat) :
    Nat → PollTrace
  | 0 => ⟨JVal.null, PollExit.timeout, 0, []⟩
  | n + 1 =>
    match net 0 with
    | ReqOutcome.exn => ⟨JVal.null, PollExit.transportError, 1, []⟩
    | ReqOutcome.ok r =>
      if r.status_code = 200 then
        match r.body with
        | none => ⟨JVal.null, PollExit.jsonError, 1, []⟩
        | some b =>
          if truthy (pyGetD b ("error") (JVal.bool false)) then
            ⟨JVal.null, PollExit.taskFailed, 1, []⟩
          else if truthy (pyGetD b ("revivedTrackTaskResults") (JVal.obj [])) then
            ⟨pyGetD b ("revivedTrackTaskResults") (JVal.obj []),
              PollExit.completed, 1, []⟩
          else
            stepTrace poll_interval (poll_enhanced_track (shift net) poll_interval n)
      else if r.status_code = 404 ∨ r.status_code = 503 ∨ r.status_code = 202 then
        stepTrace poll_interval (poll_enhanced_track (shift net) poll_interval n)
      else
        ⟨JVal.null, PollExit.unexpectedStatus, 1, []⟩

/-- Embedding of poll_preview_mix from roex_mix_settings.py.  Unlike the
other two polling loops, the JSON body is parsed before the status code is
inspected, so a parse failure on any status, 202 included, returns None at
once.  A 202 with a valid body is still processing; a 200 returns the
previewMixTaskResults value when its status field equals
MIX_TASK_PREVIEW_COMPLETED, otherwise returns None at once; a dict method
call on a non-object results value raises out of the function (crashed);
any other status returns None at once. -/
def poll_preview_mix (net : Nat → ReqOutcome) (poll_interval : Nat) :
    Nat → PollTrace
  | 0 => ⟨JVal.null, PollExit.timeout, 0, []⟩
  | n + 1 =>
    match net 0 with
    | ReqOutcome.exn => ⟨JVal.null, PollExit.transportError, 1, []⟩
    | ReqOutcome.ok r =>
      match r.body with
      | none => ⟨JVal.null, PollExit.jsonError, 1, []⟩
      | some b =>
        if r.status_code = 202 then
          stepTrace poll_interval (poll_preview_mix (shift net) poll_interval n)
        else if r.status_code = 200 then
          match pyGetD b ("previewMixTaskResults") (JVal.obj []) with
          | JVal.obj rf =>
            if isStrEq (pyGetD rf ("status") (JVal.str ""))
                ("MIX_TASK_PREVIEW_COMPLETED") then
              ⟨JVal.obj rf, PollExit.completed, 1, []⟩
            else
              ⟨JVal.null, PollExit.missingResult, 1, []⟩
          | _ => ⟨JVal.null, PollExit.crashed, 1, []⟩
        else
          ⟨JVal.null, PollExit.unexpectedStatus, 1, []⟩

/-- A poll answer that poll_preview_master classifies as still processing:
exactly the 202 responses, whatever the body. -/
def isProcMaster : ReqOutcome → Bool
  | ReqOutcome.exn => false
  | ReqOutcome.ok r => decide (r.status_code = 202)

/-- A poll answer that poll_enhanced_track classifies as still processing:
status 404, 503 or 202, or a 200 whose valid body has a falsy error flag
and an empty or missing revivedTrackTaskResults value. -/
def isProcEnhance : ReqOutcome → Bool
  | ReqOutcome.exn => false
  | ReqOutcome.ok r =>
    if r.status_code = 404 ∨ r.status_code = 503 ∨ r.status_code = 202 then
      true
    else if r.status_code = 200 then
      match r.body with
      | none => false
      | some b =>
        !(truthy (pyGetD b ("error") (JVal.bool false))) &&
          !(truthy (pyGetD b ("revivedTrackTaskResults") (JVal.obj [])))
    else false

/-- A poll answer that poll_preview_mix classifies as still processing:
a 202 whose body parses as JSON. -/
def isProcMix : ReqOutcome → Bool
  | ReqOutcome.exn => false
  | ReqOutcome.ok r =>
    match r.body with
    | none => false
    | some _ => decide (r.status_code = 202)

/-- Which branch of a submission call terminated it. -/
inductive SubmitExit where
  | created
  | transportError
  | apiError
  | badStatus
  | crashedJson
deriving DecidableEq, Repr

/-- Observable behaviour of one submission call: ret is the Python return
value, with none meaning an uncaught exception propagated out of the
function (the 200 branch parses the body outside any try block). -/
structure SubmitTrace where
  ret : Option JVal
  exit : SubmitExit

/-- Embedding of start_mix_enhance_preview from roex_mix_enhance_tutorial.py.
A raised request returns None; a non-200 status returns None; a 200 with a
truthy error flag returns None; a 200 with a falsy error flag returns the
value of the mixrevive_task_id field, whatever it is; a 200 whose body is
not valid JSON raises out of the function. -/
def start_mix_enhance_preview (net : ReqOutcome) : SubmitTrace :=
  match net with
  | ReqOutcome.exn => ⟨some JVal.null, SubmitExit.transportError⟩
  | ReqOutcome.ok r =>
    if r.status_code = 200 then
      match r.body with
      | none => ⟨none, SubmitExit.crashedJson⟩
      | some b =>
        if truthy (pyGetD b ("error") (JVal.bool false)) then
          ⟨some JVal.null, SubmitExit.apiError⟩
        else
          ⟨some (pyGet b ("mixrevive_task_id")), SubmitExit.created⟩
    else
      ⟨some JVal.null, SubmitExit.badStatus⟩

/-- Embedding of start_mix_enhance from roex_mix_enhance_tutorial.py; its
body is identical to start_mix_enhance_preview apart from the endpoint. -/
def start_mix_enhance (net : ReqOutcome) : SubmitTrace :=
  match net with
  | ReqOutcome.exn => ⟨some JVal.null, SubmitExit.transportError⟩
  | ReqOutcome.ok r =>
    if r.status_code = 200 then
      match r.body with
      | none => ⟨none, SubmitExit.crashedJson⟩
      | some b =>
        if truthy (pyGetD b ("error") (JVal.bool false)) then
          ⟨some JVal.null, SubmitExit.apiError⟩
        else
          ⟨some (pyGet b ("mixrevive_task_id")), SubmitExit.created⟩
    else
      ⟨some JVal.null, SubmitExit.badStatus⟩

/-- Embedding of analyze_mix from roex_mix_comparison.py.  Every failure
mode, a raised request, a status in the 400 to 599 range (the only ones
for which raise_for_status raises) and a parse failure alike, is caught by
the blanket except clause and returns the empty dict; for any other
status, 600 and above included, the body is parsed, and when the key
mixDiagnosisResults is present its value is returned, even a null one,
with the empty dict returned when it is absent. -/
def analyze_mix (net : ReqOutcome) : JVal :=
  match net with
  | ReqOutcome.exn => JVal.obj []
  | ReqOutcome.ok r =>
    if 400 ≤ r.status_code ∧ r.status_code < 600 then JVal.obj []
    else
      match r.body with
      | none => JVal.obj []
      | some b =>
        match jget b ("mixDiagnosisResults") with
        | some v => v
        | none => JVal.obj []

/-- Embedding of retrieve_final_master from batch_album_mastering.py: a 200
yields the finalMasterTaskResults value (None when missing, or on a parse
failure); everything else yields None. -/
def retrieve_final_master (net : ReqOutcome) : JVal :=
  match net with
  | ReqOutcome.exn => JVal.null
  | ReqOutcome.ok r =>
    if r.status_code = 200 then
      match r.body with
      | none => JVal.null
      | some b => pyGet b ("finalMasterTaskResults")
    else JVal.null

/-- Embedding of get_upload_urls, defined identically in
batch_album_mastering.py, roex_audio_clean_up.py and roex_mix_comparison.py.
Result none models an exception escaping the function: when requests.post
itself raises, the except handler reads the local name response before it
was ever assigned, so an UnboundLocalError propagates instead of the
documented (None, None).  A status in the 400 to 599 range (the only ones
for which raise_for_status raises), a body parse failure, a truthy error
flag, or a falsy signed_url or readable_url all return (None, None); any
other status, 600 and above included, proceeds to body inspection, and
when both values are truthy they are returned. -/
def get_upload_urls (net : ReqOutcome) : Option (JVal × JVal) :=
  match net with
  | ReqOutcome.exn => none
  | ReqOutcome.ok r =>
    if 400 ≤ r.status_code ∧ r.status_code < 600 then some (JVal.null, JVal.null)
    else
      match r.body with
      | none => some (JVal.null, JVal.null)
      | some b =>
        if truthy (pyGet b ("error")) then some (JVal.null, JVal.null)
        else
          if !(truthy (pyGet b ("signed_url"))) ||
              !(truthy (pyGet b ("readable_url"))) then
            some (JVal.null, JVal.null)
          else
            some (pyGet b ("signed_url"), pyGet b ("readable_url"))

/-- Result of the PUT request performed by upload_file_to_signed_url:
the local file may be missing, the request may raise, or a response with
some status arrives. -/
inductive PutOutcome where
  | fileNotFound
  | exn
  | ok (status_code : Nat)
deriving DecidableEq, Repr

/-- Embedding of upload_file_to_signed_url (same body in the three files
that define it).  A missing local file returns False; a raised PUT makes
the except handler read the unassigned local name response, so the
exception escapes (none); a status in the 400 to 599 range (the only ones
for which raise_for_status raises) returns False; any other response
returns True. -/
def upload_file_to_signed_url : PutOutcome → Option Bool
  | PutOutcome.fileNotFound => some false
  | PutOutcome.exn => none
  | PutOutcome.ok s => if 400 ≤ s ∧ s < 600 then some false else some true

/-- Result of the streamed GET performed by download_file: either the
request raised or a response with a status code and a byte payload. -/
inductive GetOutcome where
  | exn
  | ok (status_code : Nat) (content : List Nat)

/-- Cut a byte sequence into consecutive chunks of at most n bytes, the way
iter_content(chunk_size=n) yields them: every chunk but the last has
exactly n bytes. -/
def chunkBytes (n : Nat) : List Nat → List (List Nat)
  | [] => []
  | x :: xs => ((x :: xs).take n) :: chunkBytes n (xs.drop (n - 1))
termination_by l => l.length
decreasing_by
  simp only [List.length_cons, List.length_drop]
  omega

/-- Embedding of download_file (identical logic in batch_album_mastering.py
and roex_mix_enhance_tutorial.py).  The value is the ordered list of chunks
written to the destination file; none means nothing was written because the
request raised or raise_for_status rejected a status in the 400 to 599
range, the only ones for which it raises (every exception is caught and
only logged); any other status streams the body to disk. -/
def download_file (net : GetOutcome) : Option (List (List Nat)) :=
  match net with
  | GetOutcome.exn => none
  | GetOutcome.ok s content =>
    if s < 400 ∨ 600 ≤ s then some (chunkBytes 8192 content) else none

/-- Characters after the last dot of a filename, if any dot occurs. -/
def afterLastDot : List Char → Option (List Char)
  | [] => none
  | c :: rest =>
    match afterLastDot rest with
    | some e => some e
    | none => if c = '.' then some rest else none

/-- Extension of a filename in the sense of os.path.splitext: the suffix
from the last dot, except that a name whose every character before that dot
is itself a dot has no extension. -/
def splitextExt (filename : String) : String :=
  let cs := filename.toList
  match afterLastDot cs with
  | none => ""
  | some suffix =>
    let pre := cs.take (cs.length - suffix.length - 1)
    if pre.any (fun c => c ≠ '.') then String.mk ('.' :: suffix) else ""

/-- Lower-casing of a short ASCII string, as str.lower does on the
extensions involved here. -/
def pyLower (s : String) : String :=
  String.mk (s.toList.map Char.toLower)

/-- Embedding of get_content_type from batch_album_mastering.py. -/
def get_content_type (filename : String) : Option String :=
  let ext := pyLower (splitextExt filename)
  if ext = (".mp3") then some ("audio/mpeg")
  else if ext = (".wav") then some ("audio/wav")
  else if ext = (".flac") then some ("audio/flac")
  else none

/-- The SUPPORTED_EXTENSIONS constant of batch_album_mastering.py. -/
def SUPPORTED_EXTENSIONS : List String := [".mp3", ".wav", ".flac"]

/-- Everything the outside world answers for one input file of the batch
mastering workflow: one oracle per outbound interaction of main() on that
file. -/
structure ItemEnv where
  filename : String
  isFile : Bool
  uploadNet : ReqOutcome
  putNet : PutOutcome
  previewNet : ReqOutcome
  pollNet : Nat → ReqOutcome
  finalNet : ReqOutcome

/-- Outcome of one iteration of the per-file loop in main() of
batch_album_mastering.py.  crashed means an uncaught exception propagated
out of the iteration, aborting the whole batch. -/
inductive ItemOutcome where
  | skipped
  | noContentType
  | crashed
  | failedUploadUrls
  | failedUpload
  | failedSubmit
  | failedPoll
  | failedFinal
  | finalNoUrl
  | completed
deriving DecidableEq, Repr

/-- One iteration of the per-file loop of main() in
batch_album_mastering.py.  The boolean state threads whether the local
name response of main() has already been bound by an earlier iteration
reaching the /masteringpreview POST: when that POST raises and response
was never bound, the except handler itself raises UnboundLocalError and
the batch dies; once bound, the handler merely prints a stale response
and the loop continues.  Polling uses the call-site defaults
max_attempts = 30 and poll_interval = 5.  The final download result is
ignored by the loop, which branches on nothing after it, so it is not
part of the outcome. -/
def processItem (respBound : Bool) (e : ItemEnv) : ItemOutcome × Bool :=
  if !e.isFile || !(SUPPORTED_EXTENSIONS.contains (pyLower (splitextExt e.filename))) then
    (ItemOutcome.skipped, respBound)
  else
    match get_content_type e.filename with
    | none => (ItemOutcome.noContentType, respBound)
    | some _ =>
      match get_upload_urls e.uploadNet with
      | none => (ItemOutcome.crashed, respBound)
      | some (su, ru) =>
        if !(truthy su) || !(truthy ru) then
          (ItemOutcome.failedUploadUrls, respBound)
        else
          match upload_file_to_signed_url e.putNet with
          | none => (ItemOutcome.crashed, respBound)
          | some false => (ItemOutcome.failedUpload, respBound)
          | some true =>
            match e.previewNet with
            | ReqOutcome.exn =>
              if respBound then (ItemOutcome.failedSubmit, respBound)
              else (ItemOutcome.crashed, respBound)
            | ReqOutcome.ok r =>
              if 400 ≤ r.status_code ∧ r.status_code < 600 then
                (ItemOutcome.failedSubmit, true)
              else
                match r.body with
                | none => (ItemOutcome.failedSubmit, true)
                | some b =>
                  if !(truthy (pyGet b ("mastering_task_id"))) then
                    (ItemOutcome.failedSubmit, true)
                  else
                    let tr := poll_preview_master e.pollNet 5 30
                    if !(truthy tr.ret) then (ItemOutcome.failedPoll, true)
                    else
                      match tr.ret with
                      | JVal.obj _ =>
                        let fr := retrieve_final_master e.finalNet
                        if !(truthy fr) then (ItemOutcome.failedFinal, true)
                        else
                          match fr with
                          | JVal.obj fb =>
                            if truthy (pyGet fb ("download_url_mastered")) then
                              (ItemOutcome.completed, true)
                            else (ItemOutcome.finalNoUrl, true)
                          | _ => (ItemOutcome.crashed, true)
                      | _ => (ItemOutcome.crashed, true)

/-- The whole per-file loop of main(): items are processed strictly in
order; an iteration whose outcome is crashed raised an uncaught exception,
so the remaining items are never reached and the second component reports
that the batch aborted. -/
def runBatch (respBound : Bool) : List ItemEnv → List ItemOutcome × Bool
  | [] => ([], false)
  | e :: rest =>
    match processItem respBound e with
    | (o, respBound2) =>
      if o = ItemOutcome.crashed then ([o], true)
      else
        match runBatch respBound2 rest with
        | (os, aborted) => (o :: os, aborted)

/-- An input file on which every remote interaction of the batch workflow
succeeds. -/
def goodEnv : ItemEnv :=
  ⟨("track1.wav"), true,
    ReqOutcome.ok ⟨200, some [("signed_url", JVal.str ("su")),
      ("readable_url", JVal.str ("ru"))], ""⟩,
    PutOutcome.ok 200,
    ReqOutcome.ok ⟨200, some [("mastering_task_id", JVal.str ("T1"))], ""⟩,
    (fun _ => ReqOutcome.ok ⟨200, some [("previewMasterTaskResults",
      JVal.obj [("previewMasterTrackURL", JVal.str ("purl"))])], ""⟩),
    ReqOutcome.ok ⟨200, some [("finalMasterTaskResults",
      JVal.obj [("download_url_mastered", JVal.str ("durl"))])], ""⟩⟩

/-- An input file whose /upload POST raises a network exception before any
response exists. -/
def badUploadEnv : ItemEnv :=
  ⟨("track2.wav"), true,
    ReqOutcome.exn,
    PutOutcome.ok 200,
    ReqOutcome.ok ⟨200, some [("mastering_task_id", JVal.str ("T2"))], ""⟩,
    (fun _ => ReqOutcome.ok ⟨200, some [("previewMasterTaskResults",
      JVal.obj [("previewMasterTrackURL", JVal.str ("purl"))])], ""⟩),
    ReqOutcome.ok ⟨200, some [("finalMasterTaskResults",
      JVal.obj [("download_url_mastered", JVal.str ("durl"))])], ""⟩⟩

/-- A still-processing answer makes poll_preview_master sleep once for the
polling interval and run the remaining budget on the rest of the stream. -/
theorem poll_master_step (net : Nat → ReqOutcome) (poll_interval n : Nat)
    (h : isProcMaster (net 0) = true) :
    poll_preview_master net poll_interval (n + 1) =
      stepTrace poll_interval (poll_preview_master (shift net) poll_interval n) := by
  cases hn : net 0 with
  | exn => rw [hn] at h; simp [isProcMaster] at h
  | ok r =>
    rw [hn] at h
    simp only [isProcMaster, decide_eq_true_eq] at h
    simp [poll_preview_master, hn, h]

/-- A still-processing answer makes poll_enhanced_track sleep once for the
polling interval and run the remaining budget on the rest of the stream. -/
theorem poll_enhance_step (net : Nat → ReqOutcome) (poll_interval n : Nat)
    (h : isProcEnhance (net 0) = true) :
    poll_enhanced_track net poll_interval (n + 1) =
      stepTrace poll_interval (poll_enhanced_track (shift net) poll_interval n) := by
  cases hn : net 0 with
  | exn => rw [hn] at h; simp [isProcEnhance] at h
  | ok r =>
    rw [hn] at h
    simp only [isProcEnhance] at h
    by_cases h4 : r.status_code = 404 ∨ r.status_code = 503 ∨ r.status_code = 202
    · have h200 : ¬ r.status_code = 200 := by
        rcases h4 with h4 | h4 | h4 <;> omega
      simp [poll_enhanced_track, hn, h200, h4]
    · rw [if_neg h4] at h
      by_cases hs : r.status_code = 200
      · rw [if_pos hs] at h
        cases hb : r.body with
        | none => rw [hb] at h; simp at h
        | some b =>
          rw [hb] at h
          simp only [Bool.and_eq_true, Bool.not_eq_eq_eq_not, Bool.not_true] at h
          obtain ⟨he, hr⟩ := h
          simp [poll_enhanced_track, hn, hs, hb, he, hr]
      · rw [if_neg hs] at h
        simp at h

/-- A still-processing answer makes poll_preview_mix sleep once for the
polling interval and run the remaining budget on the rest of the stream. -/
theorem poll_mix_step (net : Nat → ReqOutcome) (poll_interval n : Nat)
    (h : isProcMix (net 0) = true) :
    poll_preview_mix net poll_interval (n + 1) =
      stepTrace poll_interval (poll_preview_mix (shift net) poll_interval n) := by
  cases hn : net 0 with
  | exn => rw [hn] at h; simp [isProcMix] at h
  | ok r =>
    rw [hn] at h
    simp only [isProcMix] at h
    cases hb : r.body with
    | none => rw [hb] at h; simp at h
    | some b =>
      rw [hb] at h
      simp only [decide_eq_true_eq] at h
      simp [poll_preview_mix, hn, hb, h]

/-- Exhausting a budget of n attempts that all answer still-processing
makes poll_preview_master report the timeout after n requests and n
sleeps. -/
theorem poll_master_timeout (net : Nat → ReqOutcome) (poll_interval n : Nat)
    (h : ∀ i, i < n → isProcMaster (net i) = true) :
    poll_preview_master net poll_interval n =
      ⟨JVal.null, PollExit.timeout, n, List.replicate n poll_interval⟩ := by
  induction n generalizing net with
  | zero => rfl
  | succ n ih =>
    rw [poll_master_step net poll_interval n (h 0 (Nat.succ_pos n))]
    rw [ih (shift net) (fun i hi => h (i + 1) (by omega))]
    simp [stepTrace, List.replicate_succ]

/-- Exhausting a budget of n attempts that all answer still-processing
makes poll_enhanced_track report the timeout after n requests and n
sleeps. -/
theorem poll_enhance_timeout (net : Nat → ReqOutcome) (poll_interval n : Nat)
    (h : ∀ i, i < n → isProcEnhance (net i) = true) :
    poll_enhanced_track net poll_interval n =
      ⟨JVal.null, PollExit.timeout, n, List.replicate n poll_interval⟩ := by
  induction n generalizing net with
  | zero => rfl
  | succ n ih =>
    rw [poll_enhance_step net poll_interval n (h 0 (Nat.succ_pos n))]
    rw [ih (shift net) (fun i hi => h (i + 1) (by omega))]
    simp [stepTrace, List.replicate_succ]

/-- Exhausting a budget of n attempts that all answer still-processing
makes poll_preview_mix report the timeout after n requests and n sleeps. -/
theorem poll_mix_timeout (net : Nat → ReqOutcome) (poll_interval n : Nat)
    (h : ∀ i, i < n → isProcMix (net i) = true) :
    poll_preview_mix net poll_interval n =
      ⟨JVal.null, PollExit.timeout, n, List.replicate n poll_interval⟩ := by
  induction n generalizing net with
  | zero => rfl
  | succ n ih =>
    rw [poll_mix_step net poll_interval n (h 0 (Nat.succ_pos n))]
    rw [ih (shift net) (fun i hi => h (i + 1) (by omega))]
    simp [stepTrace, List.replicate_succ]

/-- C1 counterexample.  The claim says every polling function treats a 200
response whose JSON body lacks the expected result key as still
processing, sleeping and polling again.  It fails on poll_preview_master:
fed a stream whose first answer is a 200 with the valid body but without
previewMasterTaskResults, the call issues exactly one request, never
sleeps, and terminates returning None. -/
theorem claim1_counterexample :
    (poll_preview_master (fun _ => ReqOutcome.ok ⟨200, some [], ""⟩) 5 30).requests = 1 ∧
    (poll_preview_master (fun _ => ReqOutcome.ok ⟨200, some [], ""⟩) 5 30).sleeps = [] ∧
    (poll_preview_master (fun _ => ReqOutcome.ok ⟨200, some [], ""⟩) 5 30).ret = JVal.null ∧
    (poll_preview_master (fun _ => ReqOutcome.ok ⟨200, some [], ""⟩) 5 30).exit =
      PollExit.missingResult :=
  ⟨rfl, rfl, rfl, rfl⟩

/-- C1 amended.  Only poll_enhanced_track treats a 200 response lacking the
expected result key (with a falsy error flag) as still processing: it
sleeps once and performs the remaining attempts.  poll_preview_master and
poll_preview_mix instead terminate at once on such a response, returning
None after one request and no sleep. -/
theorem claim1_missing_key_policy :
    (∀ (net : Nat → ReqOutcome) (poll_interval n : Nat) (r : HttpResponse)
        (b : List (String × JVal)),
      net 0 = ReqOutcome.ok r → r.status_code = 200 → r.body = some b →
      truthy (pyGetD b ("error") (JVal.bool false)) = false →
      truthy (pyGetD b ("revivedTrackTaskResults") (JVal.obj [])) = false →
      poll_enhanced_track net poll_interval (n + 1) =
        stepTrace poll_interval (poll_enhanced_track (shift net) poll_interval n)) ∧
    (∀ (net : Nat → ReqOutcome) (poll_interval n : Nat) (r : HttpResponse)
        (b : List (String × JVal)),
      net 0 = ReqOutcome.ok r → r.status_code = 200 → r.body = some b →
      truthy (pyGet b ("previewMasterTaskResults")) = false →
      poll_preview_master net poll_interval (n + 1) =
        ⟨JVal.null, PollExit.missingResult, 1, []⟩) ∧
    (∀ (net : Nat → ReqOutcome) (poll_interval n : Nat) (r : HttpResponse)
        (b : List (String × JVal)) (rf : List (String × JVal)),
      net 0 = ReqOutcome.ok r → r.status_code = 200 → r.body = some b →
      pyGetD b ("previewMixTaskResults") (JVal.obj []) = JVal.obj rf →
      isStrEq (pyGetD rf ("status") (JVal.str ""))
        ("MIX_TASK_PREVIEW_COMPLETED") = false →
      poll_preview_mix net poll_interval (n + 1) =
        ⟨JVal.null, PollExit.missingResult, 1, []⟩) := by
  refine ⟨?_, ?_, ?_⟩
  · intro net poll_interval n r b hn hs hb he hr
    simp [poll_enhanced_track, hn, hs, hb, he, hr]
  · intro net poll_interval n r b hn hs hb hr
    simp [poll_preview_master, hn, hs, hb, hr]
  · intro net poll_interval n r b rf hn hs hb hres hst
    simp [poll_preview_mix, hn, hs, hb, hres, hst]

/-- C1 amended witness: the amended theorem applied to concrete 200
responses with an empty JSON object body. -/
theorem claim1_missing_key_policy_witness :
    poll_enhanced_track (fun _ => ReqOutcome.ok ⟨200, some [], ""⟩) 7 1 =
      stepTrace 7 (poll_enhanced_track
        (shift (fun _ => ReqOutcome.ok ⟨200, some [], ""⟩)) 7 0) ∧
    poll_preview_master (fun _ => ReqOutcome.ok ⟨200, some [], ""⟩) 5 3 =
      ⟨JVal.null, PollExit.missingResult, 1, []⟩ ∧
    poll_preview_mix (fun _ => ReqOutcome.ok ⟨200, some [], ""⟩) 5 3 =
      ⟨JVal.null, PollExit.missingResult, 1, []⟩ :=
  ⟨claim1_missing_key_policy.1 _ 7 0 ⟨200, some [], ""⟩ [] rfl rfl rfl rfl rfl,
   claim1_missing_key_policy.2.1 _ 5 2 ⟨200, some [], ""⟩ [] rfl rfl rfl rfl,
   claim1_missing_key_policy.2.2 _ 5 2 ⟨200, some [], ""⟩ [] [] rfl rfl rfl rfl rfl⟩

/-- C2.  For each polling function, when every one of the n answers in the
attempt budget is classified still-processing by that function, the call
performs exactly n requests and n sleeps of the polling interval and then
returns None through the timeout branch, never a result and never a
failure branch. -/
theorem claim2_all_processing_times_out :
    (∀ (net : Nat → ReqOutcome) (poll_interval n : Nat),
      (∀ i, i < n → isProcMaster (net i) = true) →
      poll_preview_master net poll_interval n =
        ⟨JVal.null, PollExit.timeout, n, List.replicate n poll_interval⟩) ∧
    (∀ (net : Nat → ReqOutcome) (poll_interval n : Nat),
      (∀ i, i < n → isProcEnhance (net i) = true) →
      poll_enhanced_track net poll_interval n =
        ⟨JVal.null, PollExit.timeout, n, List.replicate n poll_interval⟩) ∧
    (∀ (net : Nat → ReqOutcome) (poll_interval n : Nat),
      (∀ i, i < n → isProcMix (net i) = true) →
      poll_preview_mix net poll_interval n =
        ⟨JVal.null, PollExit.timeout, n, List.replicate n poll_interval⟩) :=
  ⟨poll_master_timeout, poll_enhance_timeout, poll_mix_timeout⟩

/-- C2 witness: a stream of 202 answers with valid bodies exhausts a budget
of two attempts in every polling function. -/
theorem claim2_all_processing_times_out_witness :
    poll_preview_master (fun _ => ReqOutcome.ok ⟨202, some [], ""⟩) 5 2 =
      ⟨JVal.null, PollExit.timeout, 2, List.replicate 2 5⟩ ∧
    poll_enhanced_track (fun _ => ReqOutcome.ok ⟨202, some [], ""⟩) 5 2 =
      ⟨JVal.null, PollExit.timeout, 2, List.replicate 2 5⟩ ∧
    poll_preview_mix (fun _ => ReqOutcome.ok ⟨202, some [], ""⟩) 5 2 =
      ⟨JVal.null, PollExit.timeout, 2, List.replicate 2 5⟩ :=
  ⟨claim2_all_processing_times_out.1 _ 5 2 (by decide),
   claim2_all_processing_times_out.2.1 _ 5 2 (by decide),
   claim2_all_processing_times_out.2.2 _ 5 2 (by decide)⟩

/-- C3 counterexample.  The claim says any poll response carrying an
explicit failure indicator, in particular a JSON error flag set true,
stops polling at that attempt with no further requests and no further
sleeps.  It fails on poll_enhanced_track: the first answer is a 202 whose
body carries the error flag set true, yet the function sleeps after it and
issues a second request (which here meets a 500 and stops). -/
theorem claim3_counterexample :
    (poll_enhanced_track
      (fun i => if i = 0 then ReqOutcome.ok ⟨202, some [("error", JVal.bool true)], ""⟩
                else ReqOutcome.ok ⟨500, none, ""⟩) 5 30).requests = 2 ∧
    (poll_enhanced_track
      (fun i => if i = 0 then ReqOutcome.ok ⟨202, some [("error", JVal.bool true)], ""⟩
                else ReqOutcome.ok ⟨500, none, ""⟩) 5 30).sleeps = [5] :=
  ⟨rfl, rfl⟩

/-- C3 amended.  A response whose HTTP status lies outside the success and
processing set of the polling function stops it at that attempt, after
exactly one request on that attempt and with no sleep, returning the None
failure outcome; and poll_enhanced_track also stops this way on a 200
whose JSON error flag is truthy.  An error flag carried by a
still-processing status (202, or 404/503 for poll_enhanced_track) does not
stop polling, and poll_preview_master and poll_preview_mix never inspect
the error flag. -/
theorem claim3_failure_stops_polling :
    (∀ (net : Nat → ReqOutcome) (poll_interval n : Nat) (r : HttpResponse),
      net 0 = ReqOutcome.ok r → r.status_code ≠ 200 → r.status_code ≠ 202 →
      poll_preview_master net poll_interval (n + 1) =
        ⟨JVal.null, PollExit.unexpectedStatus, 1, []⟩) ∧
    (∀ (net : Nat → ReqOutcome) (poll_interval n : Nat) (r : HttpResponse),
      net 0 = ReqOutcome.ok r → r.status_code ≠ 200 → r.status_code ≠ 202 →
      r.status_code ≠ 404 → r.status_code ≠ 503 →
      poll_enhanced_track net poll_interval (n + 1) =
        ⟨JVal.null, PollExit.unexpectedStatus, 1, []⟩) ∧
    (∀ (net : Nat → ReqOutcome) (poll_interval n : Nat) (r : HttpResponse)
        (b : List (String × JVal)),
      net 0 = ReqOutcome.ok r → r.status_code = 200 → r.body = some b →
      truthy (pyGetD b ("error") (JVal.bool false)) = true →
      poll_enhanced_track net poll_interval (n + 1) =
        ⟨JVal.null, PollExit.taskFailed, 1, []⟩) ∧
    (∀ (net : Nat → ReqOutcome) (poll_interval n : Nat) (r : HttpResponse),
      net 0 = ReqOutcome.ok r → r.status_code ≠ 200 → r.status_code ≠ 202 →
      (poll_preview_mix net poll_interval (n + 1)).ret = JVal.null ∧
      (poll_preview_mix net poll_interval (n + 1)).requests = 1 ∧
      (poll_preview_mix net poll_interval (n + 1)).sleeps = []) := by
  refine ⟨?_, ?_, ?_, ?_⟩
  · intro net poll_interval n r hn h200 h202
    simp [poll_preview_master, hn, h200, h202]
  · intro net poll_interval n r hn h200 h202 h404 h503
    simp [poll_enhanced_track, hn, h200, h202, h404, h503]
  · intro net poll_interval n r b hn hs hb he
    simp [poll_enhanced_track, hn, hs, hb, he]
  · intro net poll_interval n r hn h200 h202
    cases hb : r.body with
    | none => simp [poll_preview_mix, hn, hb]
    | some b => simp [poll_preview_mix, hn, hb, h200, h202]

/-- C3 amended witness: 500 answers stop each polling function at once,
and a 200 with the error flag true stops poll_enhanced_track at once. -/
theorem claim3_failure_stops_polling_witness :
    poll_preview_master (fun _ => ReqOutcome.ok ⟨500, some [], ""⟩) 5 9 =
      ⟨JVal.null, PollExit.unexpectedStatus, 1, []⟩ ∧
    poll_enhanced_track (fun _ => ReqOutcome.ok ⟨500, some [], ""⟩) 5 9 =
      ⟨JVal.null, PollExit.unexpectedStatus, 1, []⟩ ∧
    poll_enhanced_track
        (fun _ => ReqOutcome.ok ⟨200, some [("error", JVal.bool true)], ""⟩) 5 9 =
      ⟨JVal.null, PollExit.taskFailed, 1, []⟩ ∧
    (poll_preview_mix (fun _ => ReqOutcome.ok ⟨500, some [], ""⟩) 5 9).requests = 1 :=
  ⟨claim3_failure_stops_polling.1 _ 5 8 ⟨500, some [], ""⟩ rfl (by decide) (by decide),
   claim3_failure_stops_polling.2.1 _ 5 8 ⟨500, some [], ""⟩ rfl (by decide) (by decide)
     (by decide) (by decide),
   claim3_failure_stops_polling.2.2.1 _ 5 8 ⟨200, some [("error", JVal.bool true)], ""⟩
     [("error", JVal.bool true)] rfl rfl rfl rfl,
   (claim3_failure_stops_polling.2.2.2 _ 5 8 ⟨500, some [], ""⟩ rfl (by decide)
     (by decide)).2.1⟩

/-- C4.  For each polling function: an answer classified still-processing
consumes exactly one unit of the attempt budget and contributes exactly
one sleep of the polling interval before the remaining attempts run on
the rest of the stream; and an answer classified completed makes the call
return the extracted result after that single request with no sleep at
all on that attempt. -/
theorem claim4_processing_sleeps_once_completed_never :
    (∀ (net : Nat → ReqOutcome) (poll_interval n : Nat),
      isProcMaster (net 0) = true →
      poll_preview_master net poll_interval (n + 1) =
        stepTrace poll_interval (poll_preview_master (shift net) poll_interval n)) ∧
    (∀ (net : Nat → ReqOutcome) (poll_interval n : Nat),
      isProcEnhance (net 0) = true →
      poll_enhanced_track net poll_interval (n + 1) =
        stepTrace poll_interval (poll_enhanced_track (shift net) poll_interval n)) ∧
    (∀ (net : Nat → ReqOutcome) (poll_interval n : Nat),
      isProcMix (net 0) = true →
      poll_preview_mix net poll_interval (n + 1) =
        stepTrace poll_interval (poll_preview_mix (shift net) poll_interval n)) ∧
    (∀ (net : Nat → ReqOutcome) (poll_interval n : Nat) (r : HttpResponse)
        (b : List (String × JVal)),
      net 0 = ReqOutcome.ok r → r.status_code = 200 → r.body = some b →
      truthy (pyGet b ("previewMasterTaskResults")) = true →
      poll_preview_master net poll_interval (n + 1) =
        ⟨pyGet b ("previewMasterTaskResults"), PollExit.completed, 1, []⟩) ∧
    (∀ (net : Nat → ReqOutcome) (poll_interval n : Nat) (r : HttpResponse)
        (b : List (String × JVal)),
      net 0 = ReqOutcome.ok r → r.status_code = 200 → r.body = some b →
      truthy (pyGetD b ("error") (JVal.bool false)) = false →
      truthy (pyGetD b ("revivedTrackTaskResults") (JVal.obj [])) = true →
      poll_enhanced_track net poll_interval (n + 1) =
        ⟨pyGetD b ("revivedTrackTaskResults") (JVal.obj []),
          PollExit.completed, 1, []⟩) ∧
    (∀ (net : Nat → ReqOutcome) (poll_interval n : Nat) (r : HttpResponse)
        (b : List (String × JVal)) (rf : List (String × JVal)),
      net 0 = ReqOutcome.ok r → r.status_code = 200 → r.body = some b →
      pyGetD b ("previewMixTaskResults") (JVal.obj []) = JVal.obj rf →
      isStrEq (pyGetD rf ("status") (JVal.str ""))
        ("MIX_TASK_PREVIEW_COMPLETED") = true →
      poll_preview_mix net poll_interval (n + 1) =
        ⟨JVal.obj rf, PollExit.completed, 1, []⟩) := by
  refine ⟨poll_master_step, poll_enhance_step, poll_mix_step, ?_, ?_, ?_⟩
  · intro net poll_interval n r b hn hs hb hr
    simp [poll_preview_master, hn, hs, hb, hr]
  · intro net poll_interval n r b hn hs hb he hr
    simp [poll_enhanced_track, hn, hs, hb, he, hr]
  · intro net poll_interval n r b rf hn hs hb hres hst
    simp [poll_preview_mix, hn, hs, hb, hres, hst]

/-- C4 witness: the theorem applied to one concrete still-processing
answer and one concrete completed answer per polling function. -/
theorem claim4_processing_sleeps_once_completed_never_witness :
    poll_preview_master (fun _ => ReqOutcome.ok ⟨202, none, ""⟩) 5 4 =
      stepTrace 5 (poll_preview_master
        (shift (fun _ => ReqOutcome.ok ⟨202, none, ""⟩)) 5 3) ∧
    poll_enhanced_track (fun _ => ReqOutcome.ok ⟨404, none, ""⟩) 5 4 =
      stepTrace 5 (poll_enhanced_track
        (shift (fun _ => ReqOutcome.ok ⟨404, none, ""⟩)) 5 3) ∧
    poll_preview_mix (fun _ => ReqOutcome.ok ⟨202, some [], ""⟩) 5 4 =
      stepTrace 5 (poll_preview_mix
        (shift (fun _ => ReqOutcome.ok ⟨202, some [], ""⟩)) 5 3) ∧
    poll_preview_master
        (fun _ => ReqOutcome.ok ⟨200,
          some [("previewMasterTaskResults", JVal.str ("u"))], ""⟩) 5 4 =
      ⟨JVal.str ("u"), PollExit.completed, 1, []⟩ ∧
    poll_enhanced_track
        (fun _ => ReqOutcome.ok ⟨200,
          some [("revivedTrackTaskResults", JVal.str ("v"))], ""⟩) 5 4 =
      ⟨JVal.str ("v"), PollExit.completed, 1, []⟩ ∧
    poll_preview_mix
        (fun _ => ReqOutcome.ok ⟨200,
          some [("previewMixTaskResults",
            JVal.obj [("status", JVal.str ("MIX_TASK_PREVIEW_COMPLETED"))])], ""⟩) 5 4 =
      ⟨JVal.obj [("status", JVal.str ("MIX_TASK_PREVIEW_COMPLETED"))],
        PollExit.completed, 1, []⟩ :=
  ⟨claim4_processing_sleeps_once_completed_never.1 _ 5 3 (by decide),
   claim4_processing_sleeps_once_completed_never.2.1 _ 5 3 (by decide),
   claim4_processing_sleeps_once_completed_never.2.2.1 _ 5 3 (by decide),
   claim4_processing_sleeps_once_completed_never.2.2.2.1 _ 5 3
     ⟨200, some [("previewMasterTaskResults", JVal.str ("u"))], ""⟩
     [("previewMasterTaskResults", JVal.str ("u"))] rfl rfl rfl (by decide),
   claim4_processing_sleeps_once_completed_never.2.2.2.2.1 _ 5 3
     ⟨200, some [("revivedTrackTaskResults", JVal.str ("v"))], ""⟩
     [("revivedTrackTaskResults", JVal.str ("v"))] rfl rfl rfl (by decide) (by decide),
   claim4_processing_sleeps_once_completed_never.2.2.2.2.2 _ 5 3
     ⟨200, some [("previewMixTaskResults",
       JVal.obj [("status", JVal.str ("MIX_TASK_PREVIEW_COMPLETED"))])], ""⟩
     [("previewMixTaskResults",
       JVal.obj [("status", JVal.str ("MIX_TASK_PREVIEW_COMPLETED"))])]
     [("status", JVal.str ("MIX_TASK_PREVIEW_COMPLETED"))] rfl rfl rfl rfl (by decide)⟩

/-- C5 counterexample.  The claim says a submission call yields a task
identifier exactly when the HTTP response has status 200 and the body
contains the task-identifier field.  It fails on start_mix_enhance_preview:
a 200 response whose body carries both an error flag set true and a
mixrevive_task_id is answered with None, no identifier. -/
theorem claim5_counterexample :
    (start_mix_enhance_preview (ReqOutcome.ok ⟨200,
      some [("error", JVal.bool true), ("mixrevive_task_id", JVal.str ("T1"))], ""⟩)).ret =
      some JVal.null ∧
    pyGet [("error", JVal.bool true), ("mixrevive_task_id", JVal.str ("T1"))]
      ("mixrevive_task_id") = JVal.str ("T1") :=
  ⟨rfl, rfl⟩

/-- C5 amended.  start_mix_enhance_preview and start_mix_enhance return a
value other than None exactly when the HTTP response has status 200, its
body parses, the error flag in the body is absent or falsy, and the
mixrevive_task_id field holds a non-null value (which is then the value
returned).  A network failure, a non-200 status, a 200 carrying a truthy
error flag, and a 200 missing the identifier field are each logged with
their own message but all yield the same returned value None, hence no
task identifier. -/
theorem claim5_submission_identifier :
    (∀ net : ReqOutcome,
      ((∃ v, (start_mix_enhance_preview net).ret = some v ∧ v ≠ JVal.null) ↔
        (∃ r b, net = ReqOutcome.ok r ∧ r.status_code = 200 ∧ r.body = some b ∧
          truthy (pyGetD b ("error") (JVal.bool false)) = false ∧
          pyGet b ("mixrevive_task_id") ≠ JVal.null))) ∧
    (∀ net : ReqOutcome,
      ((∃ v, (start_mix_enhance net).ret = some v ∧ v ≠ JVal.null) ↔
        (∃ r b, net = ReqOutcome.ok r ∧ r.status_code = 200 ∧ r.body = some b ∧
          truthy (pyGetD b ("error") (JVal.bool false)) = false ∧
          pyGet b ("mixrevive_task_id") ≠ JVal.null))) := by
  constructor
  all_goals
    intro net
    constructor
    · intro hex
      obtain ⟨v, hv, hvne⟩ := hex
      cases net with
      | exn => simp [start_mix_enhance_preview, start_mix_enhance] at hv; simp [hv] at hvne
      | ok r =>
        by_cases hs : r.status_code = 200
        · cases hb : r.body with
          | none =>
            simp [start_mix_enhance_preview, start_mix_enhance, hs, hb] at hv
          | some b =>
            by_cases he : truthy (pyGetD b ("error") (JVal.bool false)) = true
            · simp [start_mix_enhance_preview, start_mix_enhance, hs, hb, he] at hv
              simp [hv] at hvne
            · rw [Bool.not_eq_true] at he
              refine ⟨r, b, rfl, hs, hb, he, ?_⟩
              simp [start_mix_enhance_preview, start_mix_enhance, hs, hb, he] at hv
              rw [hv]
              exact hvne
        · simp [start_mix_enhance_preview, start_mix_enhance, hs] at hv
          simp [hv] at hvne
    · intro hex
      obtain ⟨r, b, hnet, hs, hb, he, hid⟩ := hex
      subst hnet
      refine ⟨pyGet b ("mixrevive_task_id"), ?_, hid⟩
      simp [start_mix_enhance_preview, start_mix_enhance, hs, hb, he]

/-- C5 amended witness: a clean 200 carrying the identifier makes
start_mix_enhance_preview and start_mix_enhance yield the identifier. -/
theorem claim5_submission_identifier_witness :
    (∃ v, (start_mix_enhance_preview (ReqOutcome.ok ⟨200,
      some [("mixrevive_task_id", JVal.str ("T9"))], ""⟩)).ret = some v ∧
      v ≠ JVal.null) ∧
    (∃ v, (start_mix_enhance (ReqOutcome.ok ⟨200,
      some [("mixrevive_task_id", JVal.str ("T9"))], ""⟩)).ret = some v ∧
      v ≠ JVal.null) :=
  ⟨(claim5_submission_identifier.1 _).mpr
    ⟨⟨200, some [("mixrevive_task_id", JVal.str ("T9"))], ""⟩,
      [("mixrevive_task_id", JVal.str ("T9"))], rfl, rfl, rfl, rfl,
      fun h => JVal.noConfusion h⟩,
   (claim5_submission_identifier.2 _).mpr
    ⟨⟨200, some [("mixrevive_task_id", JVal.str ("T9"))], ""⟩,
      [("mixrevive_task_id", JVal.str ("T9"))], rfl, rfl, rfl, rfl,
      fun h => JVal.noConfusion h⟩⟩

/-- C6 counterexample.  The claim says a transport error, a
service-reported failure and a poll timeout are distinguishable outcomes
at the immediate caller.  It fails: poll_enhanced_track terminates through
three different branches on the three streams below, yet hands the caller
the identical value None each time, so the caller cannot tell them
apart. -/
theorem claim6_counterexample :
    (poll_enhanced_track (fun _ => ReqOutcome.exn) 5 2).exit =
      PollExit.transportError ∧
    (poll_enhanced_track (fun _ => ReqOutcome.ok ⟨202, some [], ""⟩) 5 2).exit =
      PollExit.timeout ∧
    (poll_enhanced_track
      (fun _ => ReqOutcome.ok ⟨200, some [("error", JVal.bool true)], ""⟩) 5 2).exit =
      PollExit.taskFailed ∧
    (poll_enhanced_track (fun _ => ReqOutcome.exn) 5 2).ret =
      (poll_enhanced_track (fun _ => ReqOutcome.ok ⟨202, some [], ""⟩) 5 2).ret ∧
    (poll_enhanced_track (fun _ => ReqOutcome.ok ⟨202, some [], ""⟩) 5 2).ret =
      (poll_enhanced_track
        (fun _ => ReqOutcome.ok ⟨200, some [("error", JVal.bool true)], ""⟩) 5 2).ret :=
  ⟨rfl, rfl, rfl, rfl, rfl⟩

/-- C6 amended.  Each failure condition is logged with its own message at
the failure site, but the value surfaced to the immediate caller is one
and the same default: poll_enhanced_track returns a truthy value exactly
when it completed, and every non-completed branch, transport error,
service-reported failure and timeout alike, returns the single value
None; likewise analyze_mix returns the same empty dict for a service
rejection (a 4xx or 5xx status, the range raise_for_status raises on) as
for a transport error.  Callers can therefore distinguish success from
failure but not one failure cause from another. -/
theorem claim6_failures_collapse_to_default :
    (∀ (net : Nat → ReqOutcome) (poll_interval n : Nat),
      (truthy (poll_enhanced_track net poll_interval n).ret = true ↔
        (poll_enhanced_track net poll_interval n).exit = PollExit.completed) ∧
      ((poll_enhanced_track net poll_interval n).ret = JVal.null ∨
        (poll_enhanced_track net poll_interval n).exit = PollExit.completed)) ∧
    (∀ r : HttpResponse, 400 ≤ r.status_code → r.status_code < 600 →
      analyze_mix (ReqOutcome.ok r) = analyze_mix ReqOutcome.exn) := by
  constructor
  · intro net poll_interval n
    induction n generalizing net with
    | zero => simp [poll_enhanced_track, truthy]
    | succ n ih =>
      cases hn : net 0 with
      | exn => simp [poll_enhanced_track, hn, truthy]
      | ok r =>
        by_cases hs : r.status_code = 200
        · cases hb : r.body with
          | none => simp [poll_enhanced_track, hn, hs, hb, truthy]
          | some b =>
            by_cases he : truthy (pyGetD b ("error") (JVal.bool false)) = true
            · have hstep : poll_enhanced_track net poll_interval (n + 1) =
                  ⟨JVal.null, PollExit.taskFailed, 1, []⟩ := by
                simp [poll_enhanced_track, hn, hs, hb, he]
              rw [hstep]
              simp [truthy]
            · rw [Bool.not_eq_true] at he
              by_cases hr : truthy (pyGetD b ("revivedTrackTaskResults")
                  (JVal.obj [])) = true
              · have hstep : poll_enhanced_track net poll_interval (n + 1) =
                    ⟨pyGetD b ("revivedTrackTaskResults") (JVal.obj []),
                      PollExit.completed, 1, []⟩ := by
                  simp [poll_enhanced_track, hn, hs, hb, he, hr]
                rw [hstep]
                simp [hr]
              · rw [Bool.not_eq_true] at hr
                have hstep : poll_enhanced_track net poll_interval (n + 1) =
                    stepTrace poll_interval
                      (poll_enhanced_track (shift net) poll_interval n) := by
                  simp [poll_enhanced_track, hn, hs, hb, he, hr]
                rw [hstep]
                exact ih (shift net)
        · by_cases h4 : r.status_code = 404 ∨ r.status_code = 503 ∨
              r.status_code = 202
          · have hstep : poll_enhanced_track net poll_interval (n + 1) =
                stepTrace poll_interval
                  (poll_enhanced_track (shift net) poll_interval n) := by
              simp [poll_enhanced_track, hn, hs, h4]
            rw [hstep]
            exact ih (shift net)
          · simp [poll_enhanced_track, hn, hs, h4, truthy]
  · intro r h400 h600
    have hrange : 400 ≤ r.status_code ∧ r.status_code < 600 := ⟨h400, h600⟩
    simp [analyze_mix, hrange]

/-- C6 amended witness: the theorem applied at a transport-error stream
and at a concrete 500 response. -/
theorem claim6_failures_collapse_to_default_witness :
    ((poll_enhanced_track (fun _ => ReqOutcome.exn) 5 1).ret = JVal.null ∨
      (poll_enhanced_track (fun _ => ReqOutcome.exn) 5 1).exit =
        PollExit.completed) ∧
    analyze_mix (ReqOutcome.ok ⟨500, none, ""⟩) = analyze_mix ReqOutcome.exn :=
  ⟨(claim6_failures_collapse_to_default.1 (fun _ => ReqOutcome.exn) 5 1).2,
   claim6_failures_collapse_to_default.2 ⟨500, none, ""⟩ (by decide) (by decide)⟩

/-- Concatenating the chunks cut by chunkBytes with a positive chunk size
restores the original byte sequence (stated with an explicit length fuel
for the induction). -/
theorem chunkBytes_join_of_le (n : Nat) (hn : 1 ≤ n) :
    ∀ (k : Nat) (l : List Nat), l.length ≤ k → (chunkBytes n l).flatten = l := by
  intro k
  induction k with
  | zero =>
    intro l hl
    have hnil : l = [] := List.length_eq_zero.mp (Nat.le_zero.mp hl)
    subst hnil
    simp [chunkBytes]
  | succ k ih =>
    intro l hl
    cases l with
    | nil => simp [chunkBytes]
    | cons x xs =>
      obtain ⟨m, rfl⟩ : ∃ m, n = m + 1 := ⟨n - 1, by omega⟩
      have hdlen : (xs.drop (m + 1 - 1)).length ≤ k := by
        rw [List.length_drop]
        simp only [List.length_cons] at hl
        omega
      rw [chunkBytes]
      rw [List.flatten_cons]
      rw [ih (xs.drop (m + 1 - 1)) hdlen]
      simp only [Nat.add_sub_cancel, List.take_succ_cons, List.cons_append,
        List.take_append_drop]

/-- Every chunk cut by chunkBytes has at most n bytes. -/
theorem chunkBytes_chunk_le (n : Nat) :
    ∀ (k : Nat) (l : List Nat), l.length ≤ k →
      ∀ c ∈ chunkBytes n l, c.length ≤ n := by
  intro k
  induction k with
  | zero =>
    intro l hl
    have hnil : l = [] := List.length_eq_zero.mp (Nat.le_zero.mp hl)
    subst hnil
    simp [chunkBytes]
  | succ k ih =>
    intro l hl
    cases l with
    | nil => simp [chunkBytes]
    | cons x xs =>
      rw [chunkBytes]
      intro c hc
      rcases List.mem_cons.mp hc with hc | hc
      · subst hc
        rw [List.length_take]
        exact Nat.min_le_left _ _
      · have hdlen : (xs.drop (n - 1)).length ≤ k := by
          rw [List.length_drop]
          simp only [List.length_cons] at hl
          omega
        exact ih (xs.drop (n - 1)) hdlen c hc

/-- C7.  When the remote answers a 2xx status with a byte payload, the
download helper writes exactly that payload: the written file is the
in-order concatenation of the streamed chunks, each chunk holding at most
8192 bytes, so the file on disk is byte-identical to the served
resource. -/
theorem claim7_download_writes_served_bytes :
    ∀ (s : Nat) (content : List Nat), 200 ≤ s → s < 300 →
      ∃ cs, download_file (GetOutcome.ok s content) = some cs ∧
        cs.flatten = content ∧ ∀ c ∈ cs, c.length ≤ 8192 := by
  intro s content h2 h3
  have h4 : s < 400 ∨ 600 ≤ s := Or.inl (by omega)
  refine ⟨chunkBytes 8192 content, ?_, ?_, ?_⟩
  · simp [download_file, h4]
  · exact chunkBytes_join_of_le 8192 (by omega) content.length content (Nat.le_refl _)
  · exact chunkBytes_chunk_le 8192 content.length content (Nat.le_refl _)

/-- C7 witness: the round trip applied to a 200 response serving three
bytes. -/
theorem claim7_download_writes_served_bytes_witness :
    ∃ cs, download_file (GetOutcome.ok 200 [1, 2, 3]) = some cs ∧
      cs.flatten = [1, 2, 3] ∧ ∀ c ∈ cs, c.length ≤ 8192 :=
  claim7_download_writes_served_bytes 200 [1, 2, 3] (by decide) (by decide)

/-- C8 (code bug).  The claim, backed by the docstrings, says a failure on
one input is logged and the batch proceeds to the next input.  Evaluating
the embedded batch loop on three files where the second one meets a
network failure on its /upload POST shows the run aborting: the exception
handler of get_upload_urls reads its local name response before any
assignment, so an UnboundLocalError escapes, the second item ends as
crashed, and the third file is never processed at all (only two outcomes
are produced and the abort flag is set). -/
theorem claim8_batch_aborts_on_upload_transport_failure :
    runBatch false [goodEnv, badUploadEnv, goodEnv] =
      ([ItemOutcome.completed, ItemOutcome.crashed], true) := by
  rfl

/-- C9.  Whatever the /upload endpoint answers, whenever get_upload_urls
returns a pair at all (it raises on a pure transport failure), that pair
is either (None, None) or has both the signed and the readable URL truthy;
a pair with exactly one of the two present is impossible, whatever the
response status, error flag, missing field or body parse failure. -/
theorem claim9_upload_urls_both_or_neither :
    ∀ (net : ReqOutcome) (p : JVal × JVal), get_upload_urls net = some p →
      (p.1 = JVal.null ∧ p.2 = JVal.null) ∨
      (truthy p.1 = true ∧ truthy p.2 = true) := by
  intro net p h
  unfold get_upload_urls at h
  repeat' split at h
  · exact absurd h (by simp)
  · left
    obtain rfl : (JVal.null, JVal.null) = p := Option.some.inj h
    exact ⟨rfl, rfl⟩
  · left
    obtain rfl : (JVal.null, JVal.null) = p := Option.some.inj h
    exact ⟨rfl, rfl⟩
  · left
    obtain rfl : (JVal.null, JVal.null) = p := Option.some.inj h
    exact ⟨rfl, rfl⟩
  · left
    obtain rfl : (JVal.null, JVal.null) = p := Option.some.inj h
    exact ⟨rfl, rfl⟩
  · right
    rename_i hcond
    rw [Bool.or_eq_true, not_or, Bool.not_eq_true, Bool.not_eq_true,
      Bool.not_eq_false', Bool.not_eq_false'] at hcond
    obtain rfl : (pyGet _ ("signed_url"), pyGet _ ("readable_url")) = p :=
      Option.some.inj h
    exact hcond

/-- C9 witness: a clean response carrying both URLs yields a pair with
both components truthy. -/
theorem claim9_upload_urls_both_or_neither_witness :
    ((JVal.str ("su"), JVal.str ("ru")).1 = JVal.null ∧
      (JVal.str ("su"), JVal.str ("ru")).2 = JVal.null) ∨
    (truthy (JVal.str ("su"), JVal.str ("ru")).1 = true ∧
      truthy (JVal.str ("su"), JVal.str ("ru")).2 = true) :=
  claim9_upload_urls_both_or_neither
    (ReqOutcome.ok ⟨200, some [("signed_url", JVal.str ("su")),
      ("readable_url", JVal.str ("ru"))], ""⟩)
    (JVal.str ("su"), JVal.str ("ru")) rfl

/-- C10.  poll_preview_mix parses the JSON body before looking at the
status code: any answer whose body fails to parse, a 202 included, ends
the call at once with None, one request and no sleep.  By contrast,
poll_preview_master and poll_enhanced_track classify a 202 by status code
alone, so a 202 with an unparseable body keeps them polling: they sleep
once and run the remaining attempts. -/
theorem claim10_mix_parses_body_first :
    (∀ (net : Nat → ReqOutcome) (poll_interval n : Nat) (r : HttpResponse),
      net 0 = ReqOutcome.ok r → r.body = none →
      poll_preview_mix net poll_interval (n + 1) =
        ⟨JVal.null, PollExit.jsonError, 1, []⟩) ∧
    (∀ (net : Nat → ReqOutcome) (poll_interval n : Nat) (r : HttpResponse),
      net 0 = ReqOutcome.ok r → r.status_code = 202 → r.body = none →
      poll_preview_master net poll_interval (n + 1) =
        stepTrace poll_interval (poll_preview_master (shift net) poll_interval n)) ∧
    (∀ (net : Nat → ReqOutcome) (poll_interval n : Nat) (r : HttpResponse),
      net 0 = ReqOutcome.ok r → r.status_code = 202 → r.body = none →
      poll_enhanced_track net poll_interval (n + 1) =
        stepTrace poll_interval (poll_enhanced_track (shift net) poll_interval n)) := by
  refine ⟨?_, ?_, ?_⟩
  · intro net poll_interval n r hn hb
    simp [poll_preview_mix, hn, hb]
  · intro net poll_interval n r hn hs hb
    simp [poll_preview_master, hn, hs]
  · intro net poll_interval n r hn hs hb
    simp [poll_enhanced_track, hn, hs]

/-- C10 witness: a 202 answer with an unparseable body makes
poll_preview_mix stop at once while the other two polling functions sleep
and continue. -/
theorem claim10_mix_parses_body_first_witness :
    poll_preview_mix (fun _ => ReqOutcome.ok ⟨202, none, ""⟩) 5 6 =
      ⟨JVal.null, PollExit.jsonError, 1, []⟩ ∧
    poll_preview_master (fun _ => ReqOutcome.ok ⟨202, none, ""⟩) 5 6 =
      stepTrace 5 (poll_preview_master
        (shift (fun _ => ReqOutcome.ok ⟨202, none, ""⟩)) 5 5) ∧
    poll_enhanced_track (fun _ => ReqOutcome.ok ⟨202, none, ""⟩) 5 6 =
      stepTrace 5 (poll_enhanced_track
        (shift (fun _ => ReqOutcome.ok ⟨202, none, ""⟩)) 5 5) :=
  ⟨claim10_mix_parses_body_first.1 _ 5 5 ⟨202, none, ""⟩ rfl rfl,
   claim10_mix_parses_body_first.2.1 _ 5 5 ⟨202, none, ""⟩ rfl rfl rfl,
   claim10_mix_parses_body_first.2.2 _ 5 5 ⟨202, none, ""⟩ rfl rfl rfl⟩

end Roex
